import Mathlib

/-!
Verification of the docling original-markdown preservation adapters.

This development embeds the two modules of the repository that implement
original-text preservation:

* `docling/chunking/original_markdown_chunker.py`: a serializer adapter
  (`OriginalMarkdownChunkingDocSerializer`) that substitutes a cached copy of
  the document's original markdown when serializing the whole document, and a
  degenerate chunker (`SingleChunkMarkdownChunker`) that yields the entire
  document as one chunk;
* `docling/utils/export.py`: the page export generator
  (`generate_multimodal_pages`) and its `_process_page` helpers.

External capabilities of the docling-core library (the base serializer, the
markdown/token recomposition of a legacy document, reference resolution, and
the bounding-box geometry chain) are modelled as opaque function fields of the
corresponding structures.  Python exceptions that the source code does not
catch (IndexError on `prov[0]`, AttributeError on attributes a `Ref` lacks)
are modelled by `Option`-valued results, `none` meaning the call raises.
-/

namespace Docling

/-- docling-core `SerializationResult`: a value object wrapping emitted text. -/
structure SerializationResult where
  text : String
deriving DecidableEq, Repr

/-- A structural element of a `DoclingDocument` (docling-core `NodeItem`),
identified abstractly. -/
structure NodeItem where
  id : Nat
deriving DecidableEq, Repr

/-- One entry yielded by `doc.iterate_items()`: either an `(item, level)` tuple
or a bare item, mirroring the `isinstance(item_tuple, tuple)` check in
`SingleChunkMarkdownChunker.chunk`. -/
inductive IterEntry where
  | tup (item : NodeItem) (level : Nat)
  | bare (item : NodeItem)
deriving DecidableEq, Repr

/-- The document as seen by the chunking adapters (docling-core
`DoclingDocument`), reduced to the capabilities the source code reads:

* `origCap` models `doc.get_original_markdown`: `none` means the attribute is
  absent, so calling it raises AttributeError; `some o` means calling it
  returns `o` (which may itself be Python `None`, i.e. `Option.none`);
* `exportToMarkdown` is the external full-document `doc.export_to_markdown()`;
* `iterItems` is the sequence `doc.iterate_items()` yields;
* `body` and `origin` are `doc.body` and `doc.origin` (origin abstracted to an
  optional identity). -/
structure DoclingDocument where
  origCap : Option (Option String)
  exportToMarkdown : String
  iterItems : List IterEntry
  body : NodeItem
  origin : Option Nat
deriving DecidableEq, Repr

/-- `doc.get_original_markdown()` wrapped in `try ... except AttributeError`,
exactly as written both in `OriginalMarkdownChunkingDocSerializer.__init__` and
in `SingleChunkMarkdownChunker.chunk`: an absent capability and a returned
`None` both yield `none`. -/
def tryGetOriginalMarkdown (doc : DoclingDocument) : Option String :=
  match doc.origCap with
  | none => none
  | some o => o

/-- The underlying `ChunkingDocSerializer` (external docling-core base class):
its document recomposition `serialize_doc` and per-node `serialize`, taken as
opaque functions of their arguments.  `serialize` takes the same arguments as
in the source: `item`, `list_level`, `is_inline_scope`, `visited`. -/
structure ChunkingDocSerializerBase where
  serialize_doc : List SerializationResult → SerializationResult
  serialize : Option NodeItem → Nat → Bool → Option (List NodeItem) → SerializationResult

/-- The state of an `OriginalMarkdownChunkingDocSerializer` after `__init__`:
the underlying base serializer plus the cached `_original_content`. -/
structure OriginalMarkdownChunkingDocSerializer where
  base : ChunkingDocSerializerBase
  originalContent : Option String

/-- `OriginalMarkdownChunkingDocSerializer.__init__`: build the base serializer
from the document (`super().__init__(doc=doc)`, abstracted as `baseFor`) and
cache the original markdown, treating AttributeError as `None`. -/
def mkOriginalMarkdownChunkingDocSerializer
    (baseFor : DoclingDocument → ChunkingDocSerializerBase)
    (doc : DoclingDocument) : OriginalMarkdownChunkingDocSerializer :=
  { base := baseFor doc
    originalContent := tryGetOriginalMarkdown doc }

namespace OriginalMarkdownChunkingDocSerializer

/-- `OriginalMarkdownChunkingDocSerializer.serialize_doc`: if the cached
original content is not `None` and there is more than one part, return the
original content; otherwise delegate to the base serializer's recomposition. -/
def serialize_doc (s : OriginalMarkdownChunkingDocSerializer)
    (parts : List SerializationResult) : SerializationResult :=
  match s.originalContent with
  | some orig =>
    if parts.length > 1 then { text := orig }
    else s.base.serialize_doc parts
  | none => s.base.serialize_doc parts

/-- `OriginalMarkdownChunkingDocSerializer.serialize`: always delegate to the
base per-node serializer. -/
def serialize (s : OriginalMarkdownChunkingDocSerializer)
    (item : Option NodeItem) (list_level : Nat) (is_inline_scope : Bool)
    (visited : Option (List NodeItem)) : SerializationResult :=
  s.base.serialize item list_level is_inline_scope visited

end OriginalMarkdownChunkingDocSerializer

/-- `DocMeta` as built in `SingleChunkMarkdownChunker.chunk`: the source-item
list plus the document origin identity. -/
structure DocMeta where
  doc_items : List NodeItem
  origin : Option Nat
deriving DecidableEq, Repr

/-- `DocChunk`: text plus metadata. -/
structure DocChunk where
  text : String
  meta : DocMeta
deriving DecidableEq, Repr

/-- The collection loop in `SingleChunkMarkdownChunker.chunk`: every entry of
`doc.iterate_items()`, extracting the item from each tuple entry. -/
def unwrapIterItems (entries : List IterEntry) : List NodeItem :=
  entries.map fun e =>
    match e with
    | .tup item _ => item
    | .bare item => item

namespace SingleChunkMarkdownChunker

/-- `SingleChunkMarkdownChunker.chunk`: yield a single chunk whose text is the
original markdown when available (AttributeError treated as absent), else the
regular `export_to_markdown()` result, with metadata listing every iterated
item, or `[doc.body]` when there are none. -/
def chunk (doc : DoclingDocument) : List DocChunk :=
  let original_content :=
    match tryGetOriginalMarkdown doc with
    | none => doc.exportToMarkdown
    | some s => s
  let doc_items := unwrapIterItems doc.iterItems
  let meta : DocMeta :=
    { doc_items := if doc_items = [] then [doc.body] else doc_items
      origin := doc.origin }
  [{ text := original_content, meta := meta }]

end SingleChunkMarkdownChunker

/-! Sample concrete instances used by witnesses and counterexamples. -/

/-- A concrete stand-in for the external base serializer: recomposition
concatenates the parts' texts. -/
def sampleBase : ChunkingDocSerializerBase :=
  { serialize_doc := fun parts => { text := String.join (parts.map SerializationResult.text) }
    serialize := fun _ _ _ _ => { text := "" } }

/-- A sample node. -/
def nodeA : NodeItem := { id := 0 }

/-- A sample document that stores original markdown and iterates one item. -/
def docOneOrig : DoclingDocument :=
  { origCap := some (some "ORIGINAL")
    exportToMarkdown := "RECOMPOSED"
    iterItems := [IterEntry.tup nodeA 0]
    body := nodeA
    origin := some 7 }

/-- A sample document on which `get_original_markdown` raises AttributeError
and which iterates no items. -/
def docNoCap : DoclingDocument :=
  { origCap := none
    exportToMarkdown := "RECOMPOSED"
    iterItems := []
    body := nodeA
    origin := none }

/-! Claims about `original_markdown_chunker.py`. -/

/-- C1 (counterexample): a serializer constructed with a non-null stored
original text does NOT return that text when the whole document serializes to
a single part — with one part, `serialize_doc` falls back to the base
recomposition of the parts. -/
theorem C1_counterexample_single_part :
    (mkOriginalMarkdownChunkingDocSerializer (fun _ => sampleBase)
        docOneOrig).originalContent = some "ORIGINAL" ∧
    ((mkOriginalMarkdownChunkingDocSerializer (fun _ => sampleBase)
        docOneOrig).serialize_doc [{ text := "# Title" }]).text ≠ "ORIGINAL" := by
  constructor
  · rfl
  · decide

/-- C1 (amended): for every serializer constructed with a non-null stored
original text, `serialize_doc` on the full list of already-serialized parts of
the whole document returns that original text whenever that list has more than
one part; a full list with at most one part instead yields the base
serializer's standard recomposition. -/
theorem C1_whole_doc_substitution
    (baseFor : DoclingDocument → ChunkingDocSerializerBase)
    (doc : DoclingDocument) (orig : String) (parts : List SerializationResult)
    (horig : tryGetOriginalMarkdown doc = some orig)
    (hparts : parts.length > 1) :
    ((mkOriginalMarkdownChunkingDocSerializer baseFor doc).serialize_doc
        parts).text = orig := by
  simp [mkOriginalMarkdownChunkingDocSerializer,
    OriginalMarkdownChunkingDocSerializer.serialize_doc, horig, hparts]

/-- C1 witness: the amended substitution rule at a concrete document with
stored original text and two parts. -/
theorem C1_whole_doc_substitution_witness :
    ((mkOriginalMarkdownChunkingDocSerializer (fun _ => sampleBase)
        docOneOrig).serialize_doc [{ text := "a" }, { text := "b" }]).text
      = "ORIGINAL" :=
  C1_whole_doc_substitution (fun _ => sampleBase) docOneOrig "ORIGINAL"
    [{ text := "a" }, { text := "b" }] rfl (by decide)

/-- C2: `serialize_doc` substitutes the cached original text exactly when that
text is non-null and the number of parts is strictly greater than one; in
every other case (null cached text, zero parts, or exactly one part) its
result equals the base serializer's standard recomposition of the parts. -/
theorem C2_serialize_doc_decision (s : OriginalMarkdownChunkingDocSerializer)
    (parts : List SerializationResult) :
    (∀ orig, s.originalContent = some orig → parts.length > 1 →
        s.serialize_doc parts = { text := orig }) ∧
    ((s.originalContent = none ∨ ¬ parts.length > 1) →
        s.serialize_doc parts = s.base.serialize_doc parts) := by
  constructor
  · intro orig horig hlen
    simp [OriginalMarkdownChunkingDocSerializer.serialize_doc, horig, hlen]
  · intro h
    rcases h with h | h
    · simp [OriginalMarkdownChunkingDocSerializer.serialize_doc, h]
    · cases horig : s.originalContent with
      | none => simp [OriginalMarkdownChunkingDocSerializer.serialize_doc, horig]
      | some orig =>
        simp [OriginalMarkdownChunkingDocSerializer.serialize_doc, horig, h]

/-- C2 witness: both sides of the decision rule at concrete inputs — two parts
substitute the cached text, one part delegates to the base recomposition. -/
theorem C2_serialize_doc_decision_witness :
    (mkOriginalMarkdownChunkingDocSerializer (fun _ => sampleBase)
        docOneOrig).serialize_doc [{ text := "a" }, { text := "b" }]
      = { text := "ORIGINAL" } ∧
    (mkOriginalMarkdownChunkingDocSerializer (fun _ => sampleBase)
        docOneOrig).serialize_doc [{ text := "a" }]
      = sampleBase.serialize_doc [{ text := "a" }] := by
  constructor
  · exact (C2_serialize_doc_decision
      (mkOriginalMarkdownChunkingDocSerializer (fun _ => sampleBase) docOneOrig)
      [{ text := "a" }, { text := "b" }]).1 "ORIGINAL" rfl (by decide)
  · exact (C2_serialize_doc_decision
      (mkOriginalMarkdownChunkingDocSerializer (fun _ => sampleBase) docOneOrig)
      [{ text := "a" }]).2 (Or.inr (by decide))

/-- C3: the single chunk yielded by `SingleChunkMarkdownChunker.chunk` has text
equal to the stored original markdown when that is retrievable, and equal to
the standard full recomposed export `export_to_markdown()` when it is absent
or its retrieval fails. -/
theorem C3_single_chunk_text (doc : DoclingDocument) :
    ∀ c ∈ SingleChunkMarkdownChunker.chunk doc,
      (∀ orig, tryGetOriginalMarkdown doc = some orig → c.text = orig) ∧
      (tryGetOriginalMarkdown doc = none → c.text = doc.exportToMarkdown) := by
  intro c hc
  simp only [SingleChunkMarkdownChunker.chunk, List.mem_singleton] at hc
  subst hc
  constructor
  · intro orig horig
    simp [horig]
  · intro h
    simp [h]

/-- C3 witness: concrete documents with and without stored original text. -/
theorem C3_single_chunk_text_witness :
    ({ text := "ORIGINAL"
       meta := { doc_items := [nodeA], origin := some 7 } } : DocChunk).text
      = "ORIGINAL" ∧
    ({ text := "RECOMPOSED"
       meta := { doc_items := [nodeA], origin := none } } : DocChunk).text
      = docNoCap.exportToMarkdown := by
  constructor
  · exact (C3_single_chunk_text docOneOrig
      { text := "ORIGINAL", meta := { doc_items := [nodeA], origin := some 7 } }
      (by decide)).1 "ORIGINAL" rfl
  · exact (C3_single_chunk_text docNoCap
      { text := "RECOMPOSED", meta := { doc_items := [nodeA], origin := none } }
      (by decide)).2 rfl

/-- C4: `SingleChunkMarkdownChunker.chunk` always yields exactly one chunk, and
that chunk's metadata source-item list is non-empty: it is the list of every
element exposed by `doc.iterate_items()` unwrapped from tuple entries, or
`[doc.body]` when no elements exist. -/
theorem C4_single_chunk_meta (doc : DoclingDocument) :
    (SingleChunkMarkdownChunker.chunk doc).length = 1 ∧
    ∀ c ∈ SingleChunkMarkdownChunker.chunk doc,
      c.meta.doc_items ≠ [] ∧
      c.meta.doc_items =
        (if unwrapIterItems doc.iterItems = [] then [doc.body]
          else unwrapIterItems doc.iterItems) := by
  refine ⟨rfl, ?_⟩
  intro c hc
  simp only [SingleChunkMarkdownChunker.chunk, List.mem_singleton] at hc
  subst hc
  constructor
  · by_cases h : unwrapIterItems doc.iterItems = []
    · simp [h]
    · simp [h]
  · rfl

/-- C4 witness: a document with one iterated item and one with none. -/
theorem C4_single_chunk_meta_witness :
    (SingleChunkMarkdownChunker.chunk docOneOrig).length = 1 ∧
    ({ text := "ORIGINAL"
       meta := { doc_items := [nodeA], origin := some 7 } } : DocChunk).meta.doc_items
      ≠ [] := by
  refine ⟨(C4_single_chunk_meta docOneOrig).1, ?_⟩
  exact ((C4_single_chunk_meta docOneOrig).2
    { text := "ORIGINAL", meta := { doc_items := [nodeA], origin := some 7 } }
    (by decide)).1

/-- C7: on a document whose `get_original_markdown` attribute is absent
(calling it raises AttributeError), the serializer adapter's construction
succeeds with a null cached text, and the single-chunk producer falls back to
the recomposed export — neither propagates an error. -/
theorem C7_attribute_absence
    (baseFor : DoclingDocument → ChunkingDocSerializerBase)
    (doc : DoclingDocument) (h : doc.origCap = none) :
    (mkOriginalMarkdownChunkingDocSerializer baseFor doc).originalContent = none ∧
    ∀ c ∈ SingleChunkMarkdownChunker.chunk doc, c.text = doc.exportToMarkdown := by
  constructor
  · simp [mkOriginalMarkdownChunkingDocSerializer, tryGetOriginalMarkdown, h]
  · intro c hc
    simp only [SingleChunkMarkdownChunker.chunk, List.mem_singleton] at hc
    subst hc
    simp [tryGetOriginalMarkdown, h]

/-- C7 witness: the capability-absent document. -/
theorem C7_attribute_absence_witness :
    (mkOriginalMarkdownChunkingDocSerializer (fun _ => sampleBase)
        docNoCap).originalContent = none ∧
    ({ text := "RECOMPOSED"
       meta := { doc_items := [nodeA], origin := none } } : DocChunk).text
      = docNoCap.exportToMarkdown := by
  refine ⟨(C7_attribute_absence (fun _ => sampleBase) docNoCap rfl).1, ?_⟩
  exact (C7_attribute_absence (fun _ => sampleBase) docNoCap rfl).2
    { text := "RECOMPOSED", meta := { doc_items := [nodeA], origin := none } }
    (by decide)

/-- C8: the per-element `serialize` entry point of the serializer adapter
returns exactly what the underlying base serializer's `serialize` returns on
the same arguments, for every node and every argument combination — it never
substitutes the cached original text. -/
theorem C8_serialize_delegates (s : OriginalMarkdownChunkingDocSerializer)
    (item : Option NodeItem) (list_level : Nat) (is_inline_scope : Bool)
    (visited : Option (List NodeItem)) :
    s.serialize item list_level is_inline_scope visited
      = s.base.serialize item list_level is_inline_scope visited := rfl

/-! Embedding of `docling/utils/export.py`. -/

/-- A provenance record on a legacy element: page number and the raw bounding
box tuple fed to the external geometry chain. -/
structure ProvEntry where
  page : Int
  bbox : List Rat
deriving DecidableEq, Repr

/-- A legacy document element (docling-core `BaseCell` / `BaseText`): its type
tag, optional text, optional provenance list, and whether it is a `Table`
(which triggers the HTML attachment in the segment builder). -/
structure LegacyItem where
  obj_type : String
  text : Option String
  prov : Option (List ProvEntry)
  isTable : Bool
deriving DecidableEq, Repr

/-- An entry of the legacy document's `main_text`: a concrete element, or a
`Ref` to be resolved through `doc._resolve_ref`.  A legacy `Ref` exposes an
`obj_type` but has no `text` or `prov` attributes. -/
inductive MainTextEntry where
  | item (it : LegacyItem)
  | ref (obj_type : String) (key : Nat)
deriving DecidableEq, Repr

/-- A raw text cell on a page, as read by `_process_page_cells`: its text, the
raw rectangle data fed to the external geometry chain, the OCR flag and the
OCR confidence score. -/
structure TextCell where
  text : String
  rect : List Rat
  from_ocr : Bool
  confidence : Rat
deriving DecidableEq, Repr

/-- A page pixel size. -/
structure Size where
  width : Rat
  height : Rat
deriving DecidableEq, Repr

/-- A conversion-result page: its number, optional size, and raw cells. -/
structure Page where
  page_no : Int
  size : Option Size
  cells : List TextCell
deriving DecidableEq, Repr

/-- The legacy document of a conversion result, with the external capabilities
the export utility calls as opaque functions: `_resolve_ref` (which may return
`None`), and the ranged recompositions `export_to_markdown(main_text_start,
main_text_stop)` and `export_to_document_tokens(main_text_start,
main_text_stop, add_page_index=False)`. -/
structure LegacyDoc where
  main_text : Option (List MainTextEntry)
  resolveRef : Nat → Option LegacyItem
  export_to_markdown : Int → Int → String
  export_to_document_tokens : Int → Int → String

/-- The conversion result: its legacy document, page collection, and the
result-level `get_original_markdown()` capability. -/
structure ConversionResult where
  legacy_document : LegacyDoc
  pages : List Page
  get_original_markdown : Option String

/-- External geometry and rendering capabilities used by the export utility:
the `BoundingBox.from_tuple(...).to_top_left_origin(...).normalized(...)
.as_tuple()` chain over a segment's provenance bbox, the analogous chain over
a cell rectangle, and `Table.export_to_html`. -/
structure ExportEnv where
  projBBox : List Rat → Size → List Rat
  projCellBBox : List Rat → Size → List Rat
  tableHtml : LegacyItem → String

/-- A layout segment record built by `_process_page_segments`; `data` holds the
optional `(html_seq, otsl_seq)` attachment for tables. -/
structure Segment where
  index_in_doc : Nat
  label : String
  text : String
  bbox : List Rat
  data : List (String × String)
deriving DecidableEq, Repr

/-- A cell record built by `_process_page_cells`. -/
structure CellRec where
  text : String
  bbox : List Rat
  ocr : Bool
  ocr_confidence : Rat
deriving DecidableEq, Repr

/-- The `label_to_doclaynet` translation table, as a lookup function. -/
def label_to_doclaynet (t : String) : Option String :=
  match t with
  | "title" => some "title"
  | "table-of-contents" => some "document_index"
  | "subtitle-level-1" => some "section_header"
  | "checkbox-selected" => some "checkbox_selected"
  | "checkbox-unselected" => some "checkbox_unselected"
  | "caption" => some "caption"
  | "page-header" => some "page_header"
  | "page-footer" => some "page_footer"
  | "footnote" => some "footnote"
  | "table" => some "table"
  | "formula" => some "formula"
  | "list-item" => some "list_item"
  | "code" => some "code"
  | "figure" => some "picture"
  | "picture" => some "picture"
  | "reference" => some "text"
  | "paragraph" => some "text"
  | "text" => some "text"
  | _ => none

/-- Python list indexing semantics: non-negative indices count from the front,
negative indices from the back, `none` is an IndexError. -/
def pyGet (l : List α) (i : Int) : Option α :=
  if i ≥ 0 then l.get? i.toNat
  else if (l.length : Int) + i ≥ 0 then l.get? ((l.length : Int) + i).toNat
  else none

/-- The `obj_type` attribute of a main-text entry (legacy items and Refs both
expose one). -/
def MainTextEntry.objType : MainTextEntry → String
  | .item it => it.obj_type
  | .ref t _ => t

/-- The `prov` attribute of a main-text entry; reading it on a `Ref` raises
AttributeError, modelled by the outer `none`. -/
def MainTextEntry.provAttr : MainTextEntry → Option (Option (List ProvEntry))
  | .item it => some it.prov
  | .ref _ _ => none

/-- The `text` attribute of a main-text entry; absent on a `Ref`. -/
def MainTextEntry.textAttr : MainTextEntry → Option (Option String)
  | .item it => some it.text
  | .ref _ _ => none

/-- Whether a main-text entry `isinstance(item, Table)`; a `Ref` never is. -/
def MainTextEntry.isTableEntry : MainTextEntry → Option LegacyItem
  | .item it => if it.isTable then some it else none
  | .ref _ _ => none

/-- `_process_page_segments`: build one layout segment per `doc_items` entry
that has a mapped label, a non-`None` provenance, and a page with a size;
other entries are skipped.  The whole call fails (`none`) when an entry that
passes the label test is a `Ref` (AttributeError on `prov`) or has an empty
provenance list (IndexError on `prov[0]`). -/
def processPageSegments (env : ExportEnv) (page : Page) :
    List (Nat × MainTextEntry) → Option (List Segment)
  | [] => some []
  | (ix, item) :: rest =>
    match label_to_doclaynet item.objType with
    | none => processPageSegments env page rest
    | some label =>
      match item.provAttr with
      | none => none
      | some none => processPageSegments env page rest
      | some (some provs) =>
        match page.size with
        | none => processPageSegments env page rest
        | some size =>
          match provs with
          | [] => none
          | p0 :: _ =>
            let new_bbox := env.projBBox p0.bbox size
            let segText :=
              match item.textAttr with
              | some (some t) => t
              | _ => ""
            let segData :=
              match item.isTableEntry with
              | some it => [(env.tableHtml it, "")]
              | none => []
            let seg : Segment :=
              { index_in_doc := ix, label := label, text := segText
                bbox := new_bbox, data := segData }
            (processPageSegments env page rest).map (seg :: ·)

/-- `_process_page_cells`: reproject and annotate every raw cell of the page;
an absent page size yields the empty list. -/
def processPageCells (env : ExportEnv) (page : Page) : List CellRec :=
  match page.size with
  | none => []
  | some size =>
    page.cells.map fun cell =>
      { text := cell.text
        bbox := env.projCellBBox cell.rect size
        ocr := cell.from_ocr
        ocr_confidence := cell.confidence }

/-- The mutable run state of the generator loop: accumulated plain text,
current page number, and the run's start index, end index and item list. -/
structure RunState where
  content_text : String
  page_no : Int
  start_ix : Int
  end_ix : Int
  doc_items : List (Nat × MainTextEntry)
deriving Repr

/-- One yielded tuple of `generate_multimodal_pages`: accumulated plain text,
markdown text, tokenized text, cell records, layout segments, page record. -/
structure PageTuple where
  content_text : String
  content_md : String
  content_dt : String
  page_cells : List CellRec
  page_segments : List Segment
  page : Page
deriving DecidableEq, Repr

/-- The whole-document test inside `_process_page`: the original markdown is
present, the run starts at index 0, `main_text` is present, and the run ends
at the last index of `main_text`. -/
def wholeDocRange (res : ConversionResult) (st : RunState) : Bool :=
  match res.get_original_markdown, res.legacy_document.main_text with
  | some _, some mt => st.start_ix == 0 && st.end_ix == (mt.length : Int) - 1
  | _, _ => false

/-- `_process_page`: look up the current page (Python indexing on
`doc_result.pages[page_no - 1]`), build cell and segment records, and choose
the markdown text — the stored original markdown when `wholeDocRange` holds,
else the recomposed export over the run's index range; the tokenized text is
always the ranged recomposition.  `none` models an uncaught exception. -/
def processPage (env : ExportEnv) (res : ConversionResult) (st : RunState) :
    Option PageTuple :=
  match pyGet res.pages (st.page_no - 1) with
  | none => none
  | some page =>
    let page_cells := processPageCells env page
    match processPageSegments env page st.doc_items with
    | none => none
    | some page_segments =>
      let content_md :=
        if wholeDocRange res st then (res.get_original_markdown).getD ""
        else res.legacy_document.export_to_markdown st.start_ix st.end_ix
      let content_dt :=
        res.legacy_document.export_to_document_tokens st.start_ix st.end_ix
      some { content_text := st.content_text, content_md := content_md
             content_dt := content_dt, page_cells := page_cells
             page_segments := page_segments, page := page }

/-- The item obtained from a `main_text` entry as in the source:
`doc._resolve_ref(orig_item) if isinstance(orig_item, Ref) else orig_item`. -/
def resolveEntry (doc : LegacyDoc) : MainTextEntry → Option LegacyItem
  | .item it => some it
  | .ref _ key => doc.resolveRef key

/-- The `has_items_with_pages` scan: some resolved element carries a non-empty
provenance list. -/
def hasItemsWithPages (doc : LegacyDoc) (mt : List MainTextEntry) : Bool :=
  mt.any fun e =>
    match resolveEntry doc e with
    | none => false
    | some it =>
      match it.prov with
      | none => false
      | some ps => decide (ps.length > 0)

/-- The plain-text aggregation of the synthesized-page branch: join element
texts with trailing single spaces, skipping unresolved refs and empty or
absent text (`if resolved_item and resolved_item.text`). -/
def aggregateText (doc : LegacyDoc) (mt : List MainTextEntry) : String :=
  mt.foldl
    (fun acc e =>
      match resolveEntry doc e with
      | some it =>
        match it.text with
        | some t => if t ≠ "" then acc ++ t ++ " " else acc
        | none => acc
      | none => acc)
    ""

/-- The placeholder page synthesized when a non-paginated conversion result
has no page records: page 1, A4 size in mm, no cells. -/
def dummyPage : Page :=
  { page_no := 1, size := some { width := 210, height := 297 }, cells := [] }

/-- The per-element state update of the paginated loop after the boundary
check: set the current page number and run end index, append the item, and
accumulate its non-empty text into the plain-text buffer. -/
def advance (st : RunState) (ix : Nat) (item : LegacyItem) (item_page : Int) :
    RunState :=
  { content_text :=
      match item.text with
      | some t => if t ≠ "" then st.content_text ++ t ++ " " else st.content_text
      | none => st.content_text
    page_no := item_page
    start_ix := st.start_ix
    end_ix := (ix : Int)
    doc_items := st.doc_items ++ [(ix, MainTextEntry.item item)] }

/-- The paginated main loop of `generate_multimodal_pages`: walk the
enumerated `main_text`, skipping unresolved or provenance-free elements,
flushing a page tuple whenever an element's page number exceeds the current
one, and flushing the final run when items remain.  Returns the yielded
tuples and whether the generator aborted with an exception from
`_process_page`. -/
def runPages (env : ExportEnv) (res : ConversionResult) :
    List (Nat × MainTextEntry) → RunState → List PageTuple × Bool
  | [], st =>
    if st.doc_items.length > 0 then
      match processPage env res st with
      | some t => ([t], false)
      | none => ([], true)
    else ([], false)
  | (ix, orig_item) :: rest, st =>
    match resolveEntry res.legacy_document orig_item with
    | none => runPages env res rest st
    | some item =>
      match item.prov with
      | none => runPages env res rest st
      | some [] => runPages env res rest st
      | some (p0 :: _) =>
        let item_page := p0.page
        if st.page_no > 0 ∧ item_page > st.page_no then
          match processPage env res st with
          | none => ([], true)
          | some t =>
            let st' : RunState :=
              { content_text := "", page_no := st.page_no
                start_ix := (ix : Int), end_ix := st.end_ix, doc_items := [] }
            let out := runPages env res rest (advance st' ix item item_page)
            (t :: out.1, out.2)
        else
          runPages env res rest (advance st ix item item_page)

/-- `generate_multimodal_pages`: the full generator, returning the list of
yielded tuples and an abort flag (`true` when an uncaught exception escaped
mid-generation, after the tuples already yielded). -/
def generate_multimodal_pages (env : ExportEnv) (res : ConversionResult) :
    List PageTuple × Bool :=
  match res.legacy_document.main_text with
  | none => ([], false)
  | some mt =>
    if hasItemsWithPages res.legacy_document mt = false then
      let start_ix : Int := 0
      let end_ix : Int := (mt.length : Int) - 1
      if res.pages.isEmpty then
        let content_text := aggregateText res.legacy_document mt
        let content_md :=
          match res.get_original_markdown with
          | some orig => orig
          | none => res.legacy_document.export_to_markdown start_ix end_ix
        let content_dt :=
          res.legacy_document.export_to_document_tokens start_ix end_ix
        ([{ content_text := content_text, content_md := content_md
            content_dt := content_dt, page_cells := [], page_segments := []
            page := dummyPage }], false)
      else
        match processPage env res
            { content_text := "", page_no := 1, start_ix := start_ix
              end_ix := end_ix, doc_items := mt.enum } with
        | some t => ([t], false)
        | none => ([], true)
    else
      runPages env res mt.enum
        { content_text := "", page_no := 0, start_ix := 0, end_ix := 0
          doc_items := [] }

/-! Sample export-side instances used by witnesses. -/

/-- A concrete stand-in for the external geometry and rendering chains. -/
def sampleEnv : ExportEnv :=
  { projBBox := fun b _ => b
    projCellBBox := fun b _ => b
    tableHtml := fun _ => "HTML" }

/-- A sample page with a size and no cells. -/
def page1 : Page :=
  { page_no := 1, size := some { width := 100, height := 200 }, cells := [] }

/-- A sample provenance-free text element. -/
def itemA : LegacyItem :=
  { obj_type := "text", text := some "hello", prov := none, isTable := false }

/-- Another sample provenance-free text element. -/
def itemB : LegacyItem :=
  { obj_type := "text", text := some "world", prov := none, isTable := false }

/-- One-element main text. -/
def mt1 : List MainTextEntry := [MainTextEntry.item itemA]

/-- Two-element main text. -/
def mt2 : List MainTextEntry := [MainTextEntry.item itemA, MainTextEntry.item itemB]

/-- A legacy document over `mt1` with constant recompositions. -/
def ldoc1 : LegacyDoc :=
  { main_text := some mt1
    resolveRef := fun _ => none
    export_to_markdown := fun _ _ => "RECOMP"
    export_to_document_tokens := fun _ _ => "DT" }

/-- A legacy document over `mt2`. -/
def ldoc2 : LegacyDoc := { ldoc1 with main_text := some mt2 }

/-- A legacy document with a null `main_text`. -/
def ldocNone : LegacyDoc := { ldoc1 with main_text := none }

/-- A conversion result over `ldoc1` with one page and original markdown. -/
def res1 : ConversionResult :=
  { legacy_document := ldoc1, pages := [page1], get_original_markdown := some "OG" }

/-- A conversion result over `ldoc2` with one page and original markdown. -/
def res2 : ConversionResult :=
  { legacy_document := ldoc2, pages := [page1], get_original_markdown := some "OG" }

/-- A conversion result over `ldoc1` with no page records. -/
def resSynth : ConversionResult :=
  { legacy_document := ldoc1, pages := [], get_original_markdown := some "OG" }

/-- A conversion result whose document has a null `main_text`. -/
def resNone : ConversionResult :=
  { legacy_document := ldocNone, pages := [], get_original_markdown := none }

/-- A run state for the sole page of a one-element document. -/
def st1 : RunState :=
  { content_text := "", page_no := 1, start_ix := 0, end_ix := 0, doc_items := [] }

/-- The tuple `_process_page` produces for `res1` at `st1`. -/
def tup1 : PageTuple :=
  { content_text := "", content_md := "OG", content_dt := "DT"
    page_cells := [], page_segments := [], page := page1 }

/-- The tuple `_process_page` produces for `res2` at `st1` (a partial run). -/
def tup2p : PageTuple :=
  { content_text := "", content_md := "RECOMP", content_dt := "DT"
    page_cells := [], page_segments := [], page := page1 }

/-- The tuple the synthesized-page branch produces for `resSynth`. -/
def tupSynth : PageTuple :=
  { content_text := "hello ", content_md := "OG", content_dt := "DT"
    page_cells := [], page_segments := [], page := dummyPage }

/-- Helper: the plain-text and markdown fields of any tuple `_process_page`
returns successfully are the state's accumulated text and the
`wholeDocRange`-selected markdown. -/
theorem processPage_some_content (env : ExportEnv) (res : ConversionResult)
    (st : RunState) (t : PageTuple) (hp : processPage env res st = some t) :
    t.content_text = st.content_text ∧
    t.content_md =
      (if wholeDocRange res st then (res.get_original_markdown).getD ""
       else res.legacy_document.export_to_markdown st.start_ix st.end_ix) := by
  simp only [processPage] at hp
  cases hpage : pyGet res.pages (st.page_no - 1) with
  | none => simp [hpage] at hp
  | some page =>
    simp only [hpage] at hp
    cases hseg : processPageSegments env page st.doc_items with
    | none => simp [hseg] at hp
    | some segs =>
      simp only [hseg] at hp
      injection hp with hp
      subst hp
      exact ⟨rfl, rfl⟩

/-- C5: for a multi-page document with stored original text, a page tuple
emitted by `_process_page` from run state `st` has markdown equal to the
original text when the run's range is `[0, last index of main_text]`, and
equal to the standard recomposed export restricted to the run's range for any
other range. -/
theorem C5_run_md_selection (env : ExportEnv) (res : ConversionResult)
    (mt : List MainTextEntry) (orig : String) (st : RunState) (t : PageTuple)
    (hmt : res.legacy_document.main_text = some mt)
    (horig : res.get_original_markdown = some orig)
    (hp : processPage env res st = some t) :
    (st.start_ix = 0 ∧ st.end_ix = (mt.length : Int) - 1 → t.content_md = orig) ∧
    (¬(st.start_ix = 0 ∧ st.end_ix = (mt.length : Int) - 1) →
        t.content_md = res.legacy_document.export_to_markdown st.start_ix st.end_ix) := by
  have h := (processPage_some_content env res st t hp).2
  have hw : wholeDocRange res st
      = (st.start_ix == 0 && st.end_ix == (mt.length : Int) - 1) := by
    unfold wholeDocRange
    rw [horig, hmt]
  constructor
  · rintro ⟨h0, h1⟩
    rw [h, hw, h0, h1]
    simp [horig]
  · intro hne
    have hfalse : (st.start_ix == 0 && st.end_ix == (mt.length : Int) - 1) = false := by
      by_contra hcon
      rw [Bool.not_eq_false] at hcon
      exact hne (by simpa [Bool.and_eq_true, beq_iff_eq] using hcon)
    rw [h, hw, hfalse]
    simp

/-- C5 witness: a whole-document run substitutes the original text, and a
partial run of a two-element document gets the recomposed export. -/
theorem C5_run_md_selection_witness :
    tup1.content_md = "OG" ∧ tup2p.content_md = "RECOMP" := by
  constructor
  · exact (C5_run_md_selection sampleEnv res1 mt1 "OG" st1 tup1
      rfl rfl rfl).1 (by decide)
  · exact (C5_run_md_selection sampleEnv res2 mt2 "OG" st1 tup2p
      rfl rfl rfl).2 (by decide)

/-- Helper: in the non-paginated branch with page records present, the
generator emits exactly what `_process_page` yields on the whole-document run
state. -/
theorem generate_nonpaginated_pages_eq (env : ExportEnv) (res : ConversionResult)
    (mt : List MainTextEntry)
    (hmt : res.legacy_document.main_text = some mt)
    (hnp : hasItemsWithPages res.legacy_document mt = false)
    (hpe : res.pages.isEmpty = false) :
    generate_multimodal_pages env res =
      match processPage env res
          { content_text := "", page_no := 1, start_ix := 0
            end_ix := (mt.length : Int) - 1, doc_items := mt.enum } with
      | some t => ([t], false)
      | none => ([], true) := by
  simp [generate_multimodal_pages, hmt, hnp, hpe]

/-- C6: for a document in which no element carries page provenance and whose
conversion result has stored original text, every emitted page tuple's
markdown field equals the stored original text, and when no exception aborts
the generator it emits exactly one tuple. -/
theorem C6_nonpaginated_original (env : ExportEnv) (res : ConversionResult)
    (mt : List MainTextEntry) (orig : String)
    (hmt : res.legacy_document.main_text = some mt)
    (hnp : hasItemsWithPages res.legacy_document mt = false)
    (horig : res.get_original_markdown = some orig) :
    ((generate_multimodal_pages env res).2 = false →
        (generate_multimodal_pages env res).1.length = 1) ∧
    ∀ t ∈ (generate_multimodal_pages env res).1, t.content_md = orig := by
  by_cases hpe : res.pages.isEmpty = true
  · constructor
    · intro _
      simp [generate_multimodal_pages, hmt, hnp, hpe]
    · intro t ht
      simp only [generate_multimodal_pages, hmt, hnp, hpe, if_true, if_pos,
        List.mem_singleton] at ht
      subst ht
      simp [horig]
  · rw [Bool.not_eq_true] at hpe
    rw [generate_nonpaginated_pages_eq env res mt hmt hnp hpe]
    rcases hpp : processPage env res
        { content_text := "", page_no := 1, start_ix := 0
          end_ix := (mt.length : Int) - 1, doc_items := mt.enum } with _ | t
    · simp
    · have hmd := (processPage_some_content env res _ t hpp).2
      have hw : wholeDocRange res
          { content_text := "", page_no := 1, start_ix := 0
            end_ix := (mt.length : Int) - 1, doc_items := mt.enum } = true := by
        unfold wholeDocRange
        rw [horig, hmt]
        simp
      rw [hw] at hmd
      simp only [if_true] at hmd
      rw [horig] at hmd
      constructor
      · intro _
        simp
      · intro t' ht'
        simp only [List.mem_singleton] at ht'
        subst ht'
        simpa using hmd

/-- C6 witness: a non-paginated one-element document with original text and no
page records emits one tuple with the original markdown. -/
theorem C6_nonpaginated_original_witness :
    (generate_multimodal_pages sampleEnv resSynth).1.length = 1 ∧
    tupSynth.content_md = "OG" := by
  have h := C6_nonpaginated_original sampleEnv resSynth mt1 "OG" rfl rfl rfl
  refine ⟨h.1 rfl, h.2 tupSynth ?_⟩
  have hg : (generate_multimodal_pages sampleEnv resSynth).1 = [tupSynth] := rfl
  rw [hg]
  exact List.mem_singleton.mpr rfl

/-- C9: when the legacy document's `main_text` is null, the generator yields
no page tuples and returns without raising. -/
theorem C9_null_main_text (env : ExportEnv) (res : ConversionResult)
    (h : res.legacy_document.main_text = none) :
    generate_multimodal_pages env res = ([], false) := by
  simp [generate_multimodal_pages, h]

/-- C9 witness: a conversion result with a null `main_text`. -/
theorem C9_null_main_text_witness :
    generate_multimodal_pages sampleEnv resNone = ([], false) :=
  C9_null_main_text sampleEnv resNone rfl

/-- C10: for a document in which no element carries page provenance but whose
conversion result has at least one page record, every emitted page tuple's
accumulated plain-text field is the empty string. -/
theorem C10_pages_branch_empty_plaintext (env : ExportEnv)
    (res : ConversionResult) (mt : List MainTextEntry)
    (hmt : res.legacy_document.main_text = some mt)
    (hnp : hasItemsWithPages res.legacy_document mt = false)
    (hpe : res.pages.isEmpty = false) :
    ∀ t ∈ (generate_multimodal_pages env res).1, t.content_text = "" := by
  rw [generate_nonpaginated_pages_eq env res mt hmt hnp hpe]
  rcases hpp : processPage env res
      { content_text := "", page_no := 1, start_ix := 0
        end_ix := (mt.length : Int) - 1, doc_items := mt.enum } with _ | t
  · simp
  · intro t' ht'
    simp only [List.mem_singleton] at ht'
    subst ht'
    exact (processPage_some_content env res _ t' hpp).1

/-- C10 witness: the one-element non-paginated document with one page record
emits a tuple with empty plain text. -/
theorem C10_pages_branch_empty_plaintext_witness : tup1.content_text = "" := by
  apply C10_pages_branch_empty_plaintext sampleEnv res1 mt1 rfl rfl rfl tup1
  have hg : (generate_multimodal_pages sampleEnv res1).1 = [tup1] := rfl
  rw [hg]
  exact List.mem_singleton.mpr rfl

/-- Helper: every tuple the paginated loop emits is an output of
`_process_page` at some run state, so `C5_run_md_selection` covers every
emission of the multi-page branch. -/
theorem runPages_mem_processPage (env : ExportEnv) (res : ConversionResult) :
    ∀ (entries : List (Nat × MainTextEntry)) (st : RunState) (t : PageTuple),
      t ∈ (runPages env res entries st).1 →
      ∃ st', processPage env res st' = some t := by
  intro entries
  induction entries with
  | nil =>
    intro st t ht
    simp only [runPages] at ht
    split at ht
    · split at ht
      · rename_i u hpp
        simp only [List.mem_singleton] at ht
        subst ht
        exact ⟨st, hpp⟩
      · simp at ht
    · simp at ht
  | cons hd rest ih =>
    obtain ⟨ix, orig_item⟩ := hd
    intro st t ht
    simp only [runPages] at ht
    split at ht
    · exact ih st t ht
    · rename_i item hres
      split at ht
      · exact ih st t ht
      · exact ih st t ht
      · rename_i p0 ptail hprov
        split at ht
        · split at ht
          · simp at ht
          · rename_i u hpp
            simp only [List.mem_cons] at ht
            rcases ht with ht | ht
            · subst ht
              exact ⟨st, hpp⟩
            · exact ih _ t ht
        · exact ih _ t ht
